import Mathlib

/-!
Verification of the ORT curation report generator (`ort_curation_script.py`).

The script is embedded shallowly: YAML/Python values become the inductive
type `Val`, Python `dict.get` with a default becomes `Val.get` (raising
`AttributeError` on non-dicts, modelled with `Except`), Python truthiness
becomes `Val.truthy`, `len` becomes `Val.len`, slicing `x[:n]` becomes
`Val.slice`, and f-string interpolation `str(x)` becomes `Val.pyStr`.
External effects (file reads, the Azure OpenAI chat call, file writes) are
passed in as `Except`-valued oracles, so the control flow of `__main__` is
captured by the pure function `runMain`.
-/

namespace OrtCuration

/-- A Python/YAML value as handled by the script. -/
inductive Val where
  | vnone : Val
  | vbool : Bool → Val
  | vint : Int → Val
  | vstr : String → Val
  | vlist : List Val → Val
  | vdict : List (String × Val) → Val

/-- First binding of a key in a Python dict (keys are unique in practice). -/
def lookupKey : List (String × Val) → String → Option Val
  | [], _ => none
  | (k, v) :: rest, key => if k = key then some v else lookupKey rest key

/-- Python `x.get(key, default)`: only dicts have `.get`; anything else
raises `AttributeError`. -/
def Val.get : Val → String → Val → Except String Val
  | .vdict d, key, dflt => .ok ((lookupKey d key).getD dflt)
  | _, _, _ => .error "AttributeError"

/-- Python truthiness of a value. -/
def Val.truthy : Val → Bool
  | .vnone => false
  | .vbool b => b
  | .vint n => decide (n ≠ 0)
  | .vstr s => decide (s.length ≠ 0)
  | .vlist xs => decide (xs.length ≠ 0)
  | .vdict d => decide (d.length ≠ 0)

/-- Python `len(x)`: defined on strings, lists and dicts, `TypeError`
otherwise. -/
def Val.len : Val → Except String Nat
  | .vstr s => .ok s.length
  | .vlist xs => .ok xs.length
  | .vdict d => .ok d.length
  | _ => .error "TypeError"

/-- Python slicing `x[:n]` for a nonnegative bound. -/
def Val.slice : Val → Nat → Except String Val
  | .vstr s, n => .ok (.vstr (s.take n))
  | .vlist xs, n => .ok (.vlist (xs.take n))
  | _, _ => .error "TypeError"

/-- Python iteration over a value: lists yield their elements, strings their
characters, dicts their keys; other values raise `TypeError`. -/
def Val.iter : Val → Except String (List Val)
  | .vstr s => .ok (s.data.map (fun c => .vstr (String.singleton c)))
  | .vlist xs => .ok xs
  | .vdict d => .ok (d.map (fun kv => .vstr kv.fst))
  | _ => .error "TypeError"

/-- Python `x.items()`: only dicts have `.items`. -/
def Val.items : Val → Except String (List (String × Val))
  | .vdict d => .ok d
  | _ => .error "AttributeError"

/-- Quote character chosen by Python `repr` for a string. -/
def pyQuoteChar (s : String) : Char :=
  if s.contains '\x27' && !s.contains '"' then '"' else '\x27'

/-- Escaping of one character inside a Python `repr` of a string. -/
def pyEscapeChar (q c : Char) : String :=
  if c = '\\' then "\\\\"
  else if c = q then "\\".push q
  else if c = '\n' then "\\n"
  else if c = '\r' then "\\r"
  else if c = '\t' then "\\t"
  else String.singleton c

/-- Python `repr` of a string. -/
def pyReprString (s : String) : String :=
  let q := pyQuoteChar s
  String.singleton q ++ String.join (s.data.map (pyEscapeChar q)) ++ String.singleton q

mutual

/-- Python `repr` of a value. -/
def Val.pyRepr : Val → String
  | .vnone => "None"
  | .vbool b => if b then "True" else "False"
  | .vint n => toString n
  | .vstr s => pyReprString s
  | .vlist xs => "[" ++ String.intercalate ", " (pyReprList xs) ++ "]"
  | .vdict d => "\x7b" ++ String.intercalate ", " (pyReprItems d) ++ "\x7d"

/-- `repr` of the elements of a Python list. -/
def pyReprList : List Val → List String
  | [] => []
  | v :: rest => v.pyRepr :: pyReprList rest

/-- `repr` of the key/value pairs of a Python dict. -/
def pyReprItems : List (String × Val) → List String
  | [] => []
  | (k, v) :: rest => (pyReprString k ++ ": " ++ v.pyRepr) :: pyReprItems rest

end

/-- Python `str(x)` as used by f-string interpolation. -/
def Val.pyStr : Val → String
  | .vstr s => s
  | v => v.pyRepr

/-- `ort_data.get('analyzer', {}).get('result', {})` from the script. -/
def resultOf (ort_data : Val) : Except String Val := do
  (← ort_data.get "analyzer" (.vdict [])).get "result" (.vdict [])

/-- The `issues` lookup on line 45 of the script. -/
def issuesOf (ort_data : Val) : Except String Val := do
  (← resultOf ort_data).get "issues" (.vdict [])

/-- The `packages` lookup on line 46 of the script. -/
def packagesOf (ort_data : Val) : Except String Val := do
  (← resultOf ort_data).get "packages" (.vlist [])

/-- Python condition `x and len(x) > 0` (short-circuit: `len` is only
evaluated when `x` is truthy). -/
def pyTruthyLenPos (v : Val) : Except String Bool :=
  if v.truthy then do
    let n ← v.len
    .ok (decide (0 < n))
  else .ok false

/-- `ORTCurationReportGenerator.determine_analysis_status` (lines 43-53). -/
def determine_analysis_status (ort_data : Val) : Except String String := do
  let issues ← issuesOf ort_data
  let packages ← packagesOf ort_data
  let errorFlag ← pyTruthyLenPos issues
  if errorFlag then .ok "ERROR"
  else do
    let successFlag ← pyTruthyLenPos packages
    if successFlag then .ok "SUCCESS" else .ok "INCOMPLETE"

/-- The success-branch task template (lines 77-155 of the script). -/
def success_task : String :=
  "\n"
  ++ "**Your Task**: Generate a comprehensive curation report in PROPER MARKDOWN FORMAT.\n"
  ++ "\n"
  ++ "CRITICAL FORMATTING RULES:\n"
  ++ "- Use proper heading hierarchy: # for main title, ## for sections, ### for subsections\n"
  ++ "- Add blank lines before and after each heading\n"
  ++ "- Add blank lines before and after lists\n"
  ++ "- Use proper markdown list syntax with consistent indentation\n"
  ++ "- Add blank lines between paragraphs\n"
  ++ "- Use markdown tables where appropriate\n"
  ++ "- Use code blocks with ``` for technical content\n"
  ++ "- Ensure all markdown syntax is properly formatted\n"
  ++ "\n"
  ++ "**Report Structure** (use this exact structure):\n"
  ++ "\n"
  ++ "## Executive Summary\n"
  ++ "[Provide a clear, concise overview]\n"
  ++ "\n"
  ++ "## License Analysis\n"
  ++ "\n"
  ++ "### License Distribution\n"
  ++ "[Create a markdown table showing license types and counts]\n"
  ++ "\n"
  ++ "### License Categories\n"
  ++ "[Categorize licenses as Permissive, Copyleft, Proprietary, etc.]\n"
  ++ "\n"
  ++ "### License Compliance Concerns\n"
  ++ "[List any concerns with proper formatting]\n"
  ++ "\n"
  ++ "## Package Inventory\n"
  ++ "\n"
  ++ "### Package Summary\n"
  ++ "[Provide statistics]\n"
  ++ "\n"
  ++ "### Detailed Package List\n"
  ++ "[Create a well-formatted table or list with: Package Name, Version, License, Source]\n"
  ++ "\n"
  ++ "## Risk Assessment\n"
  ++ "\n"
  ++ "### High Priority Issues\n"
  ++ "[List critical items]\n"
  ++ "\n"
  ++ "### Medium Priority Issues\n"
  ++ "[List moderate concerns]\n"
  ++ "\n"
  ++ "### Low Priority Issues\n"
  ++ "[List minor notes]\n"
  ++ "\n"
  ++ "## Recommendations\n"
  ++ "\n"
  ++ "### Immediate Actions Required\n"
  ++ "[Numbered list of actions]\n"
  ++ "\n"
  ++ "### Best Practices\n"
  ++ "[Bullet list of recommendations]\n"
  ++ "\n"
  ++ "### Long-term Considerations\n"
  ++ "[Strategic recommendations]\n"
  ++ "\n"
  ++ "## Summary\n"
  ++ "\n"
  ++ "**CRITICAL: Provide a clear, actionable final verdict in this section.**\n"
  ++ "\n"
  ++ "This section must include:\n"
  ++ "1. **Overall Project Status**: Clearly state whether the project is \"READY TO PROCEED\", \"NEEDS ATTENTION\", or \"BLOCKED\" for production use\n"
  ++ "2. **Key Findings**: Summarize the most important points in 2-3 sentences\n"
  ++ "3. **Compliance Posture**: Assess the overall health of the dependency ecosystem (healthy/moderate concerns/significant risks)\n"
  ++ "4. **Go/No-Go Recommendation**: Explicitly state if the project can proceed or what must be fixed first\n"
  ++ "\n"
  ++ "Example format:\n"
  ++ "\"The dependency ecosystem is [healthy/concerning/problematic], with [X] packages using predominantly [permissive/copyleft/mixed] licenses. [No immediate compliance risks identified / Critical issues must be addressed before deployment]. The project is [READY TO PROCEED / REQUIRES REMEDIATION / BLOCKED].\"\n"
  ++ "\n"
  ++ "## Appendix\n"
  ++ "\n"
  ++ "### Package Details\n"
  ++ "[Additional technical information]\n"
  ++ "\n"
  ++ "**Package Information**:\n"

/-- The error-branch task template (lines 161-237 of the script). -/
def error_task : String :=
  "\n"
  ++ "**Your Task**: Generate an error analysis report in PROPER MARKDOWN FORMAT.\n"
  ++ "\n"
  ++ "CRITICAL FORMATTING RULES:\n"
  ++ "- Use proper heading hierarchy: # for main title, ## for sections, ### for subsections\n"
  ++ "- Add blank lines before and after each heading\n"
  ++ "- Add blank lines before and after lists\n"
  ++ "- Use proper markdown list syntax with consistent indentation\n"
  ++ "- Add blank lines between paragraphs\n"
  ++ "- Use code blocks with ``` for error messages\n"
  ++ "- Ensure all markdown syntax is properly formatted\n"
  ++ "\n"
  ++ "**Report Structure** (use this exact structure):\n"
  ++ "\n"
  ++ "## Error Summary\n"
  ++ "[Brief overview of what went wrong]\n"
  ++ "\n"
  ++ "## Root Cause Analysis\n"
  ++ "\n"
  ++ "### Primary Error\n"
  ++ "[Main error explanation]\n"
  ++ "\n"
  ++ "### Contributing Factors\n"
  ++ "[List factors that led to the error]\n"
  ++ "\n"
  ++ "## Detailed Error Information\n"
  ++ "\n"
  ++ "### Error Messages\n"
  ++ "[Use code blocks for error messages]\n"
  ++ "\n"
  ++ "### Affected Components\n"
  ++ "[List what couldn\x27t be analyzed]\n"
  ++ "\n"
  ++ "## Impact Assessment\n"
  ++ "\n"
  ++ "### Compliance Risks\n"
  ++ "[Explain risks from incomplete analysis]\n"
  ++ "\n"
  ++ "### Missing Data\n"
  ++ "[What information is unavailable]\n"
  ++ "\n"
  ++ "## Troubleshooting Guide\n"
  ++ "\n"
  ++ "### Immediate Fixes\n"
  ++ "1. [Step-by-step numbered list]\n"
  ++ "\n"
  ++ "### Configuration Changes\n"
  ++ "[Detailed recommendations]\n"
  ++ "\n"
  ++ "### Alternative Approaches\n"
  ++ "[Backup strategies]\n"
  ++ "\n"
  ++ "## Resolution Steps\n"
  ++ "\n"
  ++ "### Prerequisites\n"
  ++ "[What needs to be in place]\n"
  ++ "\n"
  ++ "### Step-by-Step Resolution\n"
  ++ "1. [Detailed numbered steps]\n"
  ++ "\n"
  ++ "### Verification\n"
  ++ "[How to confirm the fix worked]\n"
  ++ "\n"
  ++ "## Next Steps\n"
  ++ "\n"
  ++ "### Immediate Actions\n"
  ++ "- [Prioritized bullet list]\n"
  ++ "\n"
  ++ "### Follow-up Tasks\n"
  ++ "- [Additional items]\n"
  ++ "\n"
  ++ "### Escalation Criteria\n"
  ++ "[When to escalate]\n"
  ++ "\n"
  ++ "**Error Details**:\n"

/-- The closing reminder appended to every prompt (line 245 of the script). -/
def prompt_reminder : String :=
  "\n\nREMEMBER: Strictly follow proper markdown formatting with blank lines, proper heading hierarchy, and consistent indentation. The output must be valid, well-formatted markdown."

/-- The `scan_time` sub-dict built by `extract_key_info`; `stop` models the
Python key `end`. -/
structure ScanTime where
  start : Val
  stop : Val

/-- The record built by `ORTCurationReportGenerator.extract_key_info`
(lines 23-41). -/
structure KeyInfo where
  repository_url : Val
  revision : Val
  ort_version : Val
  scan_time : ScanTime
  projects : Val
  packages : Val
  issues : Val
  package_managers : Val

/-- `ORTCurationReportGenerator.extract_key_info` (lines 23-41). -/
def extract_key_info (ort_data : Val) : Except String KeyInfo := do
  let analyzer ← ort_data.get "analyzer" (.vdict [])
  let result ← analyzer.get "result" (.vdict [])
  let repository ← ort_data.get "repository" (.vdict [])
  let vcs_processed ← repository.get "vcs_processed" (.vdict [])
  let repository_url ← vcs_processed.get "url" (.vstr "N/A")
  let revision ← vcs_processed.get "revision" (.vstr "N/A")
  let environment ← analyzer.get "environment" (.vdict [])
  let ort_version ← environment.get "ort_version" (.vstr "N/A")
  let scan_start ← analyzer.get "start_time" (.vstr "N/A")
  let scan_stop ← analyzer.get "end_time" (.vstr "N/A")
  let projects ← result.get "projects" (.vlist [])
  let packages ← result.get "packages" (.vlist [])
  let issues ← result.get "issues" (.vdict [])
  let config ← analyzer.get "config" (.vdict [])
  let package_managers ← config.get "enabled_package_managers" (.vlist [])
  .ok { repository_url := repository_url, revision := revision,
        ort_version := ort_version,
        scan_time := { start := scan_start, stop := scan_stop },
        projects := projects, packages := packages, issues := issues,
        package_managers := package_managers }

/-- The interpolated prefix shared by both prompt branches (lines 57-74). -/
def promptHeader (key_info : KeyInfo) (status : String) : Except String String := do
  let nProjects ← key_info.projects.len
  let nPackages ← key_info.packages.len
  let nIssues ← key_info.issues.len
  .ok ("You are an expert software compliance analyst reviewing ORT (OSS Review Toolkit) analysis results.\n"
    ++ "\n"
    ++ "**Analysis Status**: " ++ status ++ "\n"
    ++ "\n"
    ++ "**Repository Information**:\n"
    ++ "- Repository: " ++ key_info.repository_url.pyStr ++ "\n"
    ++ "- Revision: " ++ key_info.revision.pyStr ++ "\n"
    ++ "- ORT Version: " ++ key_info.ort_version.pyStr ++ "\n"
    ++ "\n"
    ++ "**Scan Details**:\n"
    ++ "- Start Time: " ++ key_info.scan_time.start.pyStr ++ "\n"
    ++ "- End Time: " ++ key_info.scan_time.stop.pyStr ++ "\n"
    ++ "\n"
    ++ "**Projects Analyzed**: " ++ toString nProjects ++ "\n"
    ++ "**Packages Detected**: " ++ toString nPackages ++ "\n"
    ++ "**Issues Found**: " ++ toString nIssues ++ "\n"
    ++ "\n")

/-- One iteration of the package loop (lines 156-159). -/
def pkgBlock (pkg : Val) : Except String String := do
  let idVal ← pkg.get "id" (.vstr "Unknown")
  let licVal ← pkg.get "declared_licenses" (.vlist [.vstr "Unknown"])
  let hpVal ← pkg.get "homepage_url" (.vstr "N/A")
  .ok ("\n- " ++ idVal.pyStr
    ++ "\n  License: " ++ licVal.pyStr
    ++ "\n  Homepage: " ++ hpVal.pyStr)

/-- The package loop of the success branch (lines 156-159), in list order. -/
def pkgSection : List Val → Except String String
  | [] => .ok ""
  | pkg :: rest => do
    let block ← pkgBlock pkg
    let tail ← pkgSection rest
    .ok (block ++ tail)

/-- One iteration of the inner issue loop (lines 240-243). -/
def issueBlock (issue : Val) : Except String String := do
  let severity ← issue.get "severity" (.vstr "Unknown")
  let source ← issue.get "source" (.vstr "Unknown")
  let message ← issue.get "message" (.vstr "Unknown")
  let clipped ← message.slice 500
  .ok ("\n- Severity: " ++ severity.pyStr
    ++ "\n- Source: " ++ source.pyStr
    ++ "\n- Message: " ++ clipped.pyStr ++ "...")

/-- The inner issue loop (lines 240-243), in list order. -/
def issueList : List Val → Except String String
  | [] => .ok ""
  | issue :: rest => do
    let block ← issueBlock issue
    let tail ← issueList rest
    .ok (block ++ tail)

/-- The outer loop over `key_info[\x27issues\x27].items()` (lines 238-243). -/
def issuesSection : List (String × Val) → Except String String
  | [] => .ok ""
  | (project_id, issues) :: rest => do
    let issueVals ← issues.iter
    let body ← issueList issueVals
    let tail ← issuesSection rest
    .ok ("\n\nProject: " ++ project_id ++ body ++ tail)

/-- `ORTCurationReportGenerator.generate_curation_prompt` (lines 55-246). -/
def generate_curation_prompt (key_info : KeyInfo) (status : String) :
    Except String String := do
  let header ← promptHeader key_info status
  if status = "SUCCESS" then
    let sliced ← key_info.packages.slice 10
    let pkgs ← sliced.iter
    let section9 ← pkgSection pkgs
    .ok (header ++ success_task ++ section9 ++ prompt_reminder)
  else
    let items ← key_info.issues.items
    let section9 ← issuesSection items
    .ok (header ++ error_task ++ section9 ++ prompt_reminder)

/-- `ORTCurationReportGenerator.generate_report` (lines 248-282). The file
read is passed in as `loadResult` and the chat-completion call as
`llmResult`; `now` stands for the formatted `datetime.now()`. -/
def generate_report (loadResult : Except String Val)
    (llmResult : Except String String) (now : String) : Except String String := do
  let ort_data ← loadResult
  let key_info ← extract_key_info ort_data
  let status ← determine_analysis_status ort_data
  let _prompt ← generate_curation_prompt key_info status
  let report ← llmResult
  let revision8 ← key_info.revision.slice 8
  let metadata := "# ORT Analysis Curation Report" ++ "\n\n"
    ++ "**Generated:** " ++ now ++ "  \n"
    ++ "**Status:** " ++ status ++ "  \n"
    ++ "**Repository:** " ++ key_info.repository_url.pyStr ++ "  \n"
    ++ "**Revision:** " ++ revision8.pyStr ++ "...\n"
    ++ "\n---\n\n"
  .ok (metadata ++ report)

/-- `ORTCurationReportGenerator.save_report` (lines 284-288): the file write
is passed in as `writeResult`; on success it prints one line. -/
def save_report (writeResult : Except String Unit) (output_path : String) :
    Except String (List String) :=
  match writeResult with
  | .ok _ => .ok ["Report saved to: " ++ output_path]
  | .error e => .error e

/-- Observable outcome of one run of `__main__`. -/
structure MainTrace where
  clientConstructed : Bool
  apiCalled : Bool
  printed : List String
  exitCode : Nat

/-- Python falsiness of `os.environ.get(...)`: `None` and the empty string
are falsy (line 301, `if not azure_config[\x27api_key\x27]`). -/
def pyFalsyOptStr : Option String → Bool
  | none => true
  | some s => decide (s = "")

/-- Whether execution reaches the `client.chat.completions.create` call:
loading, extraction, classification and prompt generation all succeeded. -/
def reachesApiCall (loadResult : Except String Val) : Bool :=
  match (do
      let ort_data ← loadResult
      let key_info ← extract_key_info ort_data
      let status ← determine_analysis_status ort_data
      generate_curation_prompt key_info status : Except String String) with
  | .ok _ => true
  | .error _ => false

/-- The body of the `try` block of `__main__` (lines 313-320): generate the
report, save it, and collect what `save_report` printed. -/
def mainBody (loadResult : Except String Val) (llmResult : Except String String)
    (writeResult : Except String Unit) (now : String) (output_file : String) :
    Except String (String × List String) := do
  let report ← generate_report loadResult llmResult now
  let saveMsgs ← save_report writeResult output_file
  .ok (report, saveMsgs)

/-- The `"=" * 80` separator printed around the report preview. -/
def eightyEquals : String := String.mk (List.replicate 80 '=')

/-- `__main__` (lines 291-323): check the API key, construct the client,
run the try block, print, and exit. External effects are oracles. -/
def runMain (env : String → Option String) (loadResult : Except String Val)
    (llmResult : Except String String) (writeResult : Except String Unit)
    (now : String) (output_file : String) : MainTrace :=
  let api_key := env "AZURE_OPENAI_API_KEY"
  if pyFalsyOptStr api_key then
    { clientConstructed := false, apiCalled := false,
      printed := ["ERROR: AZURE_OPENAI_API_KEY environment variable not set!",
                  "Please set it in your GitHub Secrets."],
      exitCode := 1 }
  else
    match mainBody loadResult llmResult writeResult now output_file with
    | .ok (report, saveMsgs) =>
      { clientConstructed := true, apiCalled := reachesApiCall loadResult,
        printed := saveMsgs ++ ["\nReport Preview:", eightyEquals,
          report.take 1000 ++ "...\n", eightyEquals,
          "\nSuccessfully generated: " ++ output_file],
        exitCode := 0 }
    | .error e =>
      { clientConstructed := true, apiCalled := reachesApiCall loadResult,
        printed := ["Error generating report: " ++ e],
        exitCode := 1 }

/-- The KeyInfo extracted from a document with no analyzer or repository
data: every optional field falls back to its placeholder default. -/
def defaultKeyInfo : KeyInfo :=
  { repository_url := .vstr "N/A", revision := .vstr "N/A",
    ort_version := .vstr "N/A",
    scan_time := { start := .vstr "N/A", stop := .vstr "N/A" },
    projects := .vlist [], packages := .vlist [], issues := .vdict [],
    package_managers := .vlist [] }

/-- An environment with no API key set. -/
def envNoKey : String → Option String := fun _ => none

/-- An environment where the API key is set to the empty string. -/
def envEmptyKey : String → Option String := fun _ => some ""

/-- An environment with a usable API key. -/
def envWithKey : String → Option String := fun _ => some "secret-key"

/-- A sample issue record as produced by the ORT analyzer. -/
def sampleIssue : Val :=
  .vdict [("severity", .vstr "ERROR"), ("source", .vstr "Maven"),
          ("message", .vstr "Analyzer failed")]

/-- A scan document with one recorded issue and no packages. -/
def sampleErrorDoc : Val :=
  .vdict [("analyzer", .vdict [("result", .vdict
    [("issues", .vdict [("proj1", .vlist [sampleIssue])]),
     ("packages", .vlist [])])])]

/-- A sample package record. -/
def samplePackage : Val :=
  .vdict [("id", .vstr "Maven:org.example:lib:1.0"),
          ("declared_licenses", .vlist [.vstr "Apache-2.0"])]

/-- A scan document with no issues and one package. -/
def sampleSuccessDoc : Val :=
  .vdict [("analyzer", .vdict [("result", .vdict
    [("packages", .vlist [samplePackage])])])]

/-- A scan document with neither issues nor packages recorded. -/
def sampleEmptyDoc : Val := .vdict []

/-- Package entries with an `id` but no `homepage_url`. -/
def samplePkgNoHome : List (String × Val) := [("id", .vstr "NPM:a:b:1")]

/-- Twelve packages, all empty dicts. -/
def pkgListA : List Val := List.replicate 12 (.vdict [])

/-- Twelve packages agreeing with `pkgListA` on the first ten entries and
differing at index 10. -/
def pkgListB : List Val :=
  List.replicate 10 (.vdict []) ++ [.vdict [("id", .vstr "X")], .vdict []]

/-- A KeyInfo whose packages list is `pkgListA`. -/
def kiPkgsA : KeyInfo := { defaultKeyInfo with packages := .vlist pkgListA }

/-- A KeyInfo identical to `kiPkgsA` except for its packages list. -/
def kiPkgsB : KeyInfo := { kiPkgsA with packages := .vlist pkgListB }

/-- A fixed timestamp for the concrete runs. -/
def witnessNow : String := "2026-10-12 10:00:00"

/-- A fixed output file name for the concrete runs. -/
def witnessOut : String := "curation-report-20261012-100000.md"

/-- The pair returned by a fully successful run of the try block. -/
def goodPair : String × List String :=
  (mainBody (.ok sampleEmptyDoc) (.ok "BODY") (.ok ()) witnessNow witnessOut).toOption.getD ("", [])

/-- The report produced for the empty document and body "BODY". -/
def sampleReport : String :=
  (generate_report (.ok sampleEmptyDoc) (.ok "BODY") witnessNow).toOption.getD ""

@[simp]
lemma exceptBindOk {α β : Type} (a : α) (f : α → Except String β) :
    (Except.ok a >>= f : Except String β) = f a := rfl

@[simp]
lemma exceptBindErr {α β : Type} (e : String) (f : α → Except String β) :
    (Except.error e >>= f : Except String β) = .error e := rfl

@[simp]
lemma getDict (d : List (String × Val)) (k : String) (df : Val) :
    Val.get (.vdict d) k df = .ok ((lookupKey d k).getD df) := rfl

lemma getOkElim {r : Val} {k : String} {df v : Val} (h : Val.get r k df = .ok v) :
    ∃ d, r = .vdict d ∧ v = (lookupKey d k).getD df := by
  cases r <;> simp [Val.get] at h <;> exact ⟨_, rfl, h.symm⟩

lemma decideNeZeroPos (n : Nat) : decide (n ≠ 0) = decide (0 < n) := by
  cases n <;> simp

/-- A value whose `len` succeeds is truthy exactly when that length is
positive. -/
lemma truthyOfLen {v : Val} {n : Nat} (h : Val.len v = .ok n) :
    v.truthy = decide (0 < n) := by
  cases v <;> simp [Val.len] at h <;> simp only [Val.truthy] <;> rw [h] <;>
    exact decideNeZeroPos n

/-- When the `issues` lookup chain succeeds, the shared prefix of the chain
ended in a dict, so the `packages` lookup succeeds as well. -/
lemma packagesOfIssuesOk {ort_data v : Val} (h : issuesOf ort_data = .ok v) :
    ∃ d, resultOf ort_data = .ok (.vdict d) ∧
      packagesOf ort_data = .ok ((lookupKey d "packages").getD (.vlist [])) ∧
      v = (lookupKey d "issues").getD (.vdict []) := by
  unfold issuesOf at h
  rcases hres : resultOf ort_data with e | r <;> rw [hres] at h
  · simp at h
  · rw [exceptBindOk] at h
    obtain ⟨d, hd, hv⟩ := getOkElim h
    subst hd
    refine ⟨d, rfl, ?_, hv⟩
    unfold packagesOf
    rw [hres, exceptBindOk, getDict]

/-- C1: a scan document whose analyzer.result.issues collection is non-empty
is classified "ERROR" by determine_analysis_status, regardless of the
packages list. -/
theorem issues_nonempty_gives_error (ort_data v : Val) (n : Nat)
    (h1 : issuesOf ort_data = .ok v) (h2 : Val.len v = .ok n) (h3 : 0 < n) :
    determine_analysis_status ort_data = .ok "ERROR" := by
  obtain ⟨d, _, hpkg, _⟩ := packagesOfIssuesOk h1
  have htr : v.truthy = true := by rw [truthyOfLen h2]; exact decide_eq_true h3
  unfold determine_analysis_status
  rw [h1, exceptBindOk, hpkg, exceptBindOk]
  simp [pyTruthyLenPos, htr, h2, h3]

/-- Witness for C1 at a concrete one-issue document. -/
theorem issues_nonempty_gives_error_witness :
    issuesOf sampleErrorDoc = .ok (.vdict [("proj1", .vlist [sampleIssue])]) ∧
    Val.len (.vdict [("proj1", .vlist [sampleIssue])]) = .ok 1 ∧ 0 < 1 ∧
    determine_analysis_status sampleErrorDoc = .ok "ERROR" :=
  ⟨rfl, rfl, Nat.one_pos,
    issues_nonempty_gives_error sampleErrorDoc _ 1 rfl rfl Nat.one_pos⟩

/-- C2: a scan document with an empty issues collection and a non-empty
packages list is classified "SUCCESS". -/
theorem no_issues_with_packages_gives_success (ort_data v : Val) (ps : List Val)
    (h1 : issuesOf ort_data = .ok v) (h2 : Val.len v = .ok 0)
    (h3 : packagesOf ort_data = .ok (.vlist ps)) (h4 : ps ≠ []) :
    determine_analysis_status ort_data = .ok "SUCCESS" := by
  have htr : v.truthy = false := by rw [truthyOfLen h2]; simp
  have hps : Val.truthy (.vlist ps) = true := by
    simp [Val.truthy, List.length_eq_zero]
    exact h4
  unfold determine_analysis_status
  rw [h1, exceptBindOk, h3, exceptBindOk]
  simp [pyTruthyLenPos, htr, hps, Val.len, List.length_pos, h4]

/-- Witness for C2 at a concrete one-package document. -/
theorem no_issues_with_packages_gives_success_witness :
    issuesOf sampleSuccessDoc = .ok (.vdict []) ∧
    Val.len (.vdict []) = .ok 0 ∧
    packagesOf sampleSuccessDoc = .ok (.vlist [samplePackage]) ∧
    [samplePackage] ≠ [] ∧
    determine_analysis_status sampleSuccessDoc = .ok "SUCCESS" :=
  ⟨rfl, rfl, rfl, List.cons_ne_nil _ _,
    no_issues_with_packages_gives_success sampleSuccessDoc _ [samplePackage]
      rfl rfl rfl (List.cons_ne_nil _ _)⟩

/-- C3: a scan document in which both the issues collection and the packages
list are empty (in particular when they are absent, since the lookups then
fall back to the empty defaults) is classified "INCOMPLETE". -/
theorem both_empty_gives_incomplete (ort_data v w : Val)
    (h1 : issuesOf ort_data = .ok v) (h2 : Val.len v = .ok 0)
    (h3 : packagesOf ort_data = .ok w) (h4 : Val.len w = .ok 0) :
    determine_analysis_status ort_data = .ok "INCOMPLETE" := by
  have htr : v.truthy = false := by rw [truthyOfLen h2]; simp
  have htw : w.truthy = false := by rw [truthyOfLen h4]; simp
  unfold determine_analysis_status
  rw [h1, exceptBindOk, h3, exceptBindOk]
  simp [pyTruthyLenPos, htr, htw]

/-- Witness for C3 at a document where both collections are absent. -/
theorem both_empty_gives_incomplete_witness :
    issuesOf sampleEmptyDoc = .ok (.vdict []) ∧
    Val.len (.vdict []) = .ok 0 ∧
    packagesOf sampleEmptyDoc = .ok (.vlist []) ∧
    Val.len (.vlist []) = .ok 0 ∧
    determine_analysis_status sampleEmptyDoc = .ok "INCOMPLETE" :=
  ⟨rfl, rfl, rfl, rfl,
    both_empty_gives_incomplete sampleEmptyDoc _ _ rfl rfl rfl rfl⟩

/-- C4: when AZURE_OPENAI_API_KEY is absent from the environment, the Azure
client is never constructed, the text-generation API is never invoked, the
missing-credential message is printed, and the process exits with status 1. -/
theorem missing_key_exits_without_network (env : String → Option String)
    (loadResult : Except String Val) (llmResult : Except String String)
    (writeResult : Except String Unit) (now output_file : String)
    (h : env "AZURE_OPENAI_API_KEY" = none) :
    runMain env loadResult llmResult writeResult now output_file =
      { clientConstructed := false, apiCalled := false,
        printed := ["ERROR: AZURE_OPENAI_API_KEY environment variable not set!",
                    "Please set it in your GitHub Secrets."],
        exitCode := 1 } := by
  unfold runMain
  rw [h]
  simp [pyFalsyOptStr]

/-- Witness for C4 at a concrete empty environment. -/
theorem missing_key_exits_without_network_witness :
    envNoKey "AZURE_OPENAI_API_KEY" = none ∧
    runMain envNoKey (.error "no file") (.ok "BODY") (.ok ()) witnessNow witnessOut =
      { clientConstructed := false, apiCalled := false,
        printed := ["ERROR: AZURE_OPENAI_API_KEY environment variable not set!",
                    "Please set it in your GitHub Secrets."],
        exitCode := 1 } :=
  ⟨rfl, missing_key_exits_without_network envNoKey (.error "no file") (.ok "BODY")
    (.ok ()) witnessNow witnessOut rfl⟩

/-- C10: an API key set to the empty string is falsy and treated exactly like
an absent one: no client, no network call, error printed, exit status 1. -/
theorem empty_key_exits_without_network (env : String → Option String)
    (loadResult : Except String Val) (llmResult : Except String String)
    (writeResult : Except String Unit) (now output_file : String)
    (h : env "AZURE_OPENAI_API_KEY" = some "") :
    runMain env loadResult llmResult writeResult now output_file =
      { clientConstructed := false, apiCalled := false,
        printed := ["ERROR: AZURE_OPENAI_API_KEY environment variable not set!",
                    "Please set it in your GitHub Secrets."],
        exitCode := 1 } := by
  unfold runMain
  rw [h]
  simp [pyFalsyOptStr]

/-- Witness for C10 at a concrete environment with an empty key. -/
theorem empty_key_exits_without_network_witness :
    envEmptyKey "AZURE_OPENAI_API_KEY" = some "" ∧
    runMain envEmptyKey (.error "no file") (.ok "BODY") (.ok ()) witnessNow witnessOut =
      { clientConstructed := false, apiCalled := false,
        printed := ["ERROR: AZURE_OPENAI_API_KEY environment variable not set!",
                    "Please set it in your GitHub Secrets."],
        exitCode := 1 } :=
  ⟨rfl, empty_key_exits_without_network envEmptyKey (.error "no file") (.ok "BODY")
    (.ok ()) witnessNow witnessOut rfl⟩

/-- C5: with a usable key, any exception from loading, prompt building, the
API call or the file write is caught once at the top level: exactly the one
error message is printed and the exit status is 1; when the try block
completes, the exit status is 0. -/
theorem top_level_exception_handling (env : String → Option String)
    (loadResult : Except String Val) (llmResult : Except String String)
    (writeResult : Except String Unit) (now output_file key : String)
    (hk : env "AZURE_OPENAI_API_KEY" = some key) (hne : key ≠ "") :
    (∀ e, mainBody loadResult llmResult writeResult now output_file = .error e →
      runMain env loadResult llmResult writeResult now output_file =
        { clientConstructed := true, apiCalled := reachesApiCall loadResult,
          printed := ["Error generating report: " ++ e], exitCode := 1 }) ∧
    (∀ report saveMsgs,
      mainBody loadResult llmResult writeResult now output_file = .ok (report, saveMsgs) →
      (runMain env loadResult llmResult writeResult now output_file).exitCode = 0) := by
  constructor
  · intro e he
    unfold runMain
    rw [hk, he]
    simp [pyFalsyOptStr, hne]
  · intro report saveMsgs hok
    unfold runMain
    rw [hk, hok]
    simp [pyFalsyOptStr, hne]

/-- Witness for C5: with the key present, a failing load leads to exit 1 with
the single error line, and a fully successful run exits with 0. -/
theorem top_level_exception_handling_witness :
    runMain envWithKey (.error "boom") (.ok "BODY") (.ok ()) witnessNow witnessOut =
      { clientConstructed := true, apiCalled := reachesApiCall (.error "boom"),
        printed := ["Error generating report: " ++ "boom"], exitCode := 1 } ∧
    (runMain envWithKey (.ok sampleEmptyDoc) (.ok "BODY") (.ok ()) witnessNow witnessOut).exitCode = 0 :=
  ⟨(top_level_exception_handling envWithKey (.error "boom") (.ok "BODY") (.ok ())
      witnessNow witnessOut "secret-key" rfl (by decide)).1 "boom" rfl,
   (top_level_exception_handling envWithKey (.ok sampleEmptyDoc) (.ok "BODY") (.ok ())
      witnessNow witnessOut "secret-key" rfl (by decide)).2 goodPair.1 goodPair.2 rfl⟩

/-- C7: whenever generate_report returns a string, that string is the fixed
metadata header — title line, generation time, the detected status, the
repository URL and the revision truncated to its first 8 characters —
followed by the LLM-generated body. -/
theorem report_begins_with_metadata_header (loadResult : Except String Val)
    (llmResult : Except String String) (now r : String)
    (h : generate_report loadResult llmResult now = .ok r) :
    (∃ rest, r = "# ORT Analysis Curation Report" ++ rest) ∧
    ∃ ort_data key_info status body revision8,
      loadResult = .ok ort_data ∧
      extract_key_info ort_data = .ok key_info ∧
      determine_analysis_status ort_data = .ok status ∧
      llmResult = .ok body ∧
      Val.slice key_info.revision 8 = .ok revision8 ∧
      r = "# ORT Analysis Curation Report" ++ "\n\n"
        ++ "**Generated:** " ++ now ++ "  \n"
        ++ "**Status:** " ++ status ++ "  \n"
        ++ "**Repository:** " ++ key_info.repository_url.pyStr ++ "  \n"
        ++ "**Revision:** " ++ revision8.pyStr ++ "...\n"
        ++ "\n---\n\n" ++ body := by
  unfold generate_report at h
  rcases hload : loadResult with e | ort_data <;> rw [hload] at h
  · simp at h
  · rw [exceptBindOk] at h
    rcases hki : extract_key_info ort_data with e | key_info <;> rw [hki] at h
    · simp at h
    · rw [exceptBindOk] at h
      rcases hst : determine_analysis_status ort_data with e | status <;> rw [hst] at h
      · simp at h
      · rw [exceptBindOk] at h
        rcases hpr : generate_curation_prompt key_info status with e | prompt <;> rw [hpr] at h
        · simp at h
        · rw [exceptBindOk] at h
          rcases hllm : llmResult with e | body <;> rw [hllm] at h
          · simp at h
          · rw [exceptBindOk] at h
            rcases hrev : Val.slice key_info.revision 8 with e | revision8 <;> rw [hrev] at h
            · simp at h
            · rw [exceptBindOk] at h
              simp only [Except.ok.injEq] at h
              subst h
              refine ⟨by simp only [String.append_assoc]; exact ⟨_, rfl⟩,
                ort_data, key_info, status, body, revision8, rfl, hki, hst, rfl, hrev, rfl⟩

/-- Witness for C7 at the empty document and the body "BODY". -/
theorem report_begins_with_metadata_header_witness :
    (∃ rest, sampleReport = "# ORT Analysis Curation Report" ++ rest) ∧
    ∃ ort_data key_info status body revision8,
      (.ok sampleEmptyDoc : Except String Val) = .ok ort_data ∧
      extract_key_info ort_data = .ok key_info ∧
      determine_analysis_status ort_data = .ok status ∧
      (.ok "BODY" : Except String String) = .ok body ∧
      Val.slice key_info.revision 8 = .ok revision8 ∧
      sampleReport = "# ORT Analysis Curation Report" ++ "\n\n"
        ++ "**Generated:** " ++ witnessNow ++ "  \n"
        ++ "**Status:** " ++ status ++ "  \n"
        ++ "**Repository:** " ++ key_info.repository_url.pyStr ++ "  \n"
        ++ "**Revision:** " ++ revision8.pyStr ++ "...\n"
        ++ "\n---\n\n" ++ body :=
  report_begins_with_metadata_header (.ok sampleEmptyDoc) (.ok "BODY") witnessNow
    sampleReport rfl

/-- C6: absent optional fields never raise: extraction of a document with no
analyzer and no repository entry succeeds with every placeholder default,
prompt generation on the resulting record succeeds, and a package without a
homepage_url gets the literal placeholder "N/A" in its prompt block. -/
theorem absent_fields_fall_back (d : List (String × Val))
    (h1 : lookupKey d "analyzer" = none) (h2 : lookupKey d "repository" = none) :
    extract_key_info (.vdict d) = .ok defaultKeyInfo ∧
    (∃ prompt, generate_curation_prompt defaultKeyInfo "INCOMPLETE" = .ok prompt) ∧
    ∀ (p : List (String × Val)), lookupKey p "homepage_url" = none →
      pkgBlock (.vdict p) =
        .ok ("\n- " ++ ((lookupKey p "id").getD (.vstr "Unknown")).pyStr
          ++ "\n  License: " ++ ((lookupKey p "declared_licenses").getD (.vlist [.vstr "Unknown"])).pyStr
          ++ "\n  Homepage: " ++ "N/A") := by
  refine ⟨?_, ⟨_, rfl⟩, ?_⟩
  · unfold extract_key_info
    simp [h1, h2, lookupKey, defaultKeyInfo]
  · intro p hp
    unfold pkgBlock
    simp [hp, Val.pyStr]

/-- Witness for C6 at the empty document and a homepage-less package. -/
theorem absent_fields_fall_back_witness :
    extract_key_info (.vdict []) = .ok defaultKeyInfo ∧
    pkgBlock (.vdict samplePkgNoHome) =
      .ok ("\n- " ++ ((lookupKey samplePkgNoHome "id").getD (.vstr "Unknown")).pyStr
        ++ "\n  License: " ++ ((lookupKey samplePkgNoHome "declared_licenses").getD (.vlist [.vstr "Unknown"])).pyStr
        ++ "\n  Homepage: " ++ "N/A") :=
  ⟨(absent_fields_fall_back [] rfl rfl).1,
   (absent_fields_fall_back [] rfl rfl).2.2 samplePkgNoHome rfl⟩

/-- The success branch of generate_curation_prompt only ever formats the
first ten packages of the list, in list order. -/
lemma successBranchEq (key_info : KeyInfo) (pkgs : List Val)
    (h : key_info.packages = .vlist pkgs) :
    generate_curation_prompt key_info "SUCCESS" =
      (do
        let header ← promptHeader key_info "SUCCESS"
        let section9 ← pkgSection (pkgs.take 10)
        .ok (header ++ success_task ++ section9 ++ prompt_reminder)) := by
  unfold generate_curation_prompt
  refine congrArg (fun k => promptHeader key_info "SUCCESS" >>= k) (funext fun header => ?_)
  rw [if_pos rfl, h]
  rfl

/-- C8: for status "SUCCESS" the prompt consists of the header, the success
template and the per-package blocks of exactly the first ten packages in
list order; two package lists of the same length agreeing on their first ten
entries produce identical prompts, so packages beyond the tenth never
contribute their details. -/
theorem success_prompt_limited_to_first_ten (key_info : KeyInfo) (pkgs : List Val)
    (h : key_info.packages = .vlist pkgs) :
    generate_curation_prompt key_info "SUCCESS" =
      (do
        let header ← promptHeader key_info "SUCCESS"
        let section9 ← pkgSection (pkgs.take 10)
        .ok (header ++ success_task ++ section9 ++ prompt_reminder)) ∧
    ∀ (ki2 : KeyInfo) (pkgs2 : List Val), ki2.packages = .vlist pkgs2 →
      ki2 = { key_info with packages := ki2.packages } →
      pkgs2.length = pkgs.length → pkgs2.take 10 = pkgs.take 10 →
      generate_curation_prompt ki2 "SUCCESS" = generate_curation_prompt key_info "SUCCESS" := by
  refine ⟨successBranchEq key_info pkgs h, ?_⟩
  intro ki2 pkgs2 h2 heq hlen htake
  have hh : promptHeader ki2 "SUCCESS" = promptHeader key_info "SUCCESS" := by
    rw [heq, h2]
    unfold promptHeader
    simp [Val.len, h, hlen]
  rw [successBranchEq ki2 pkgs2 h2, successBranchEq key_info pkgs h, hh, htake]

/-- Witness for C8 at two concrete 12-package lists sharing a 10-prefix. -/
theorem success_prompt_limited_to_first_ten_witness :
    generate_curation_prompt kiPkgsA "SUCCESS" =
      (do
        let header ← promptHeader kiPkgsA "SUCCESS"
        let section9 ← pkgSection (pkgListA.take 10)
        .ok (header ++ success_task ++ section9 ++ prompt_reminder)) ∧
    generate_curation_prompt kiPkgsB "SUCCESS" = generate_curation_prompt kiPkgsA "SUCCESS" :=
  ⟨(success_prompt_limited_to_first_ten kiPkgsA pkgListA rfl).1,
   (success_prompt_limited_to_first_ten kiPkgsA pkgListA rfl).2 kiPkgsB pkgListB
     rfl rfl rfl rfl⟩

/-- C9: any status other than the exact string "SUCCESS" — in particular
"INCOMPLETE" — selects the error-analysis branch of the prompt, built from
the error template and the issue details, never the success template. -/
theorem non_success_status_uses_error_template (key_info : KeyInfo) (status : String)
    (h : status ≠ "SUCCESS") :
    generate_curation_prompt key_info status =
      (do
        let header ← promptHeader key_info status
        let items ← Val.items key_info.issues
        let section9 ← issuesSection items
        .ok (header ++ error_task ++ section9 ++ prompt_reminder)) := by
  unfold generate_curation_prompt
  refine congrArg (fun k => promptHeader key_info status >>= k) (funext fun header => ?_)
  rw [if_neg h]

/-- Witness for C9 at the default record and the status "INCOMPLETE". -/
theorem non_success_status_uses_error_template_witness :
    generate_curation_prompt defaultKeyInfo "INCOMPLETE" =
      (do
        let header ← promptHeader defaultKeyInfo "INCOMPLETE"
        let items ← Val.items defaultKeyInfo.issues
        let section9 ← issuesSection items
        .ok (header ++ error_task ++ section9 ++ prompt_reminder)) :=
  non_success_status_uses_error_template defaultKeyInfo "INCOMPLETE" (by decide)

end OrtCuration
